import Mathlib

/-!
Shallow embedding of the NeurIPS scraping pipeline: the crawl script
(scrapper.py) and the annotation pass (annotation.py).

Network and filesystem effects are made explicit: page fetches are passed
in as functions returning Option values (none = transport error or
non-success status, which the source turns into a swallowed exception),
and the PDF directory and the CSV store are explicit state threaded
through the definitions.
-/

namespace NeurIPS

/-- Base URL for NeurIPS proceedings (scrapper.py, BASE_URL). -/
def BASE_URL : String := "https://papers.nips.cc"

/-- Folder to save PDFs (scrapper.py, PDF_FOLDER). -/
def PDF_FOLDER : String := "neurips_pdfs"

/-- Years to scrape: range(2020, 2025) (scrapper.py, YEARS). -/
def YEARS : List Nat := [2020, 2021, 2022, 2023, 2024]

/-- Python str.strip(): drop leading and trailing whitespace. -/
def pyStrip (s : String) : String :=
  String.mk (((s.toList.dropWhile Char.isWhitespace).reverse.dropWhile Char.isWhitespace).reverse)

/-- Python str.split(sep) for a one-character separator, on the character
list: every occurrence of the separator ends a segment. -/
def splitOnChar (sep : Char) : List Char → List (List Char)
  | [] => [[]]
  | c :: rest =>
    let r := splitOnChar sep rest
    if c == sep then [] :: r
    else
      match r with
      | [] => [[c]]
      | h :: t => (c :: h) :: t

/-- The segments of url.split("/"). -/
def urlSegments (url : String) : List String :=
  (splitOnChar '/' url.toList).map String.mk

/-- Python str.startswith(pre). -/
def pyStartsWith (s pre : String) : Bool :=
  pre.toList.isPrefixOf s.toList

/-- Python str.endswith(suf). -/
def pyEndsWith (s suf : String) : Bool :=
  suf.toList.isSuffixOf s.toList

/-- Python `sub in s`: substring containment. -/
def containsSubstr (sub s : String) : Bool :=
  s.toList.tails.any (fun t => sub.toList.isPrefixOf t)

/-- Python s[:n]: the first n characters. -/
def pyTake (s : String) (n : Nat) : String :=
  String.mk (s.toList.take n)

/-- One anchor element with an href attribute, as enumerated by
soup.find_all("a", href=True): its href and its .string value
(none when the anchor has no single text child). -/
structure Anchor where
  href : String
  atext : Option String
deriving DecidableEq

/-- A parsed detail page, holding exactly the pieces scrape_paper_data
looks at: the first h4 element text, the first p.authors text, the
first p.abstract text (each absent when find returns None), and all
anchor elements with href in document order. -/
structure Page where
  h4 : Option String
  authorsP : Option String
  abstractP : Option String
  anchors : List Anchor
deriving DecidableEq

/-- The record scrape_paper_data builds for one paper. -/
structure PaperRecord where
  title : String
  authors : String
  abstract : String
  pdf_url : Option String
  year : String
deriving DecidableEq

/-- Does a candidate href qualify as a paper link (scrapper.py lines 48-49):
it starts with the year-scoped listing path and does not contain "/file/". -/
def qualifiesHref (year : Nat) (href : String) : Bool :=
  pyStartsWith href ("/paper_files/paper/" ++ toString year ++ "/")
    && !(containsSubstr "/file/" href)

/-- The accumulation loop of get_paper_links (scrapper.py lines 45-53):
walk the hrefs in document order, keep qualifying ones as full URLs,
skipping a full URL already collected. -/
def getPaperLinksGo (year : Nat) (acc : List String) : List String → List String
  | [] => acc
  | href :: rest =>
    if qualifiesHref year href then
      let full := BASE_URL ++ href
      if full ∈ acc then getPaperLinksGo year acc rest
      else getPaperLinksGo year (acc ++ [full]) rest
    else getPaperLinksGo year acc rest

/-- get_paper_links (scrapper.py lines 35-58) on a successfully fetched
index page, given the href attributes of all its anchors in document
order. (The except branch of the source returns [] on fetch failure;
callers model that case by supplying no page at all.) -/
def get_paper_links (year : Nat) (hrefs : List String) : List String :=
  getPaperLinksGo year [] hrefs

/-- First-seen-order deduplication: keep the first occurrence of each
string, drop later repeats. This is the declarative description the
spec gives of the dedup behaviour in link discovery. -/
def firstSeenDedup : List String → List String
  | [] => []
  | a :: l => a :: firstSeenDedup (l.filter (fun b => b ≠ a))
termination_by l => l.length
decreasing_by
  simp only [List.length_cons]
  exact Nat.lt_succ_of_le (List.length_filter_le _ _)

/-- The ordered PDF labels tried by scrape_paper_data (line 79). -/
def pdfLabels : List String := ["Download PDF", "PDF", "Paper PDF"]

/-- The label loop of scrape_paper_data (lines 78-82): for each label in
order, soup.find("a", href=True, string=label) returns the first anchor
whose .string equals the label; break on the first hit. -/
def findByLabels (anchors : List Anchor) : List String → Option Anchor
  | [] => none
  | lab :: rest =>
    match anchors.find? (fun a => a.atext == some lab) with
    | some a => some a
    | none => findByLabels anchors rest

/-- The fallback loop of scrape_paper_data (lines 83-88): the first anchor
whose href ends with "-Paper.pdf". -/
def pdfFallback (anchors : List Anchor) : Option Anchor :=
  anchors.find? (fun a => pyEndsWith a.href "-Paper.pdf")

/-- The whole PDF-link search of scrape_paper_data: labels first, then
the filename-suffix fallback. -/
def findPdfAnchor (anchors : List Anchor) : Option Anchor :=
  match findByLabels anchors pdfLabels with
  | some a => some a
  | none => pdfFallback anchors

/-- The two-stage PDF-link search as the spec words it: the first anchor
whose visible text exactly matches one of the labels, labels tried in
the listed order; if no label matches any anchor, the first anchor whose
target ends with the fixed filename suffix. -/
def twoStageSpec (anchors : List Anchor) : Option Anchor :=
  match pdfLabels.findSome? (fun lab => anchors.find? (fun a => a.atext == some lab)) with
  | some a => some a
  | none => anchors.find? (fun a => pyEndsWith a.href "-Paper.pdf")

/-- scrape_paper_data (scrapper.py lines 60-101). none for the page means
the fetch raised or returned a non-success status, which the except arm
turns into a None result. On a fetched page each of title, authors and
abstract independently falls back to "N/A"; the year is taken from
segment 5 of the URL split on "/" (an out-of-range index raises, is
caught, and yields None for the whole record). -/
def scrape_paper_data (url : String) (pageOpt : Option Page) : Option PaperRecord :=
  match pageOpt with
  | none => none
  | some page =>
    match (urlSegments url).get? 5 with
    | none => none
    | some yr =>
      some
        { title := match page.h4 with | some t => pyStrip t | none => "N/A"
          authors := match page.authorsP with | some t => pyStrip t | none => "N/A"
          abstract := match page.abstractP with | some t => pyStrip t | none => "N/A"
          pdf_url := (findPdfAnchor page.anchors).map (fun a => BASE_URL ++ a.href)
          year := yr }

/-- The sanitized title used for the download filename (scrapper.py
line 113): keep alphanumerics, space, hyphen, underscore; strip
surrounding whitespace; truncate to 50 characters. -/
def safeTitle (title : String) : String :=
  pyTake (pyStrip (String.mk (title.toList.filter
    (fun c => c.isAlphanum || c == ' ' || c == '-' || c == '_')))) 50

/-- The deterministic target filename of a record (scrapper.py line 114). -/
def pdfFilename (r : PaperRecord) : String :=
  PDF_FOLDER ++ "/" ++ r.year ++ "_" ++ safeTitle r.title ++ ".pdf"

/-- Result of one download_pdf call: the PDF directory afterwards (a list
of filename-content pairs), whether a network fetch was attempted, and
whether a file was written. -/
structure DlResult where
  fs : List (String × String)
  fetched : Bool
  wrote : Bool
deriving DecidableEq

/-- download_pdf (scrapper.py lines 103-127). fetchPdf returns none when
the GET raises or has a non-success status (the except arm swallows it).
The falsy guard of the source (`if not paper_data or not
paper_data["pdf_url"]`) is a no-op for a None record, an absent URL, and
the empty-string URL. A file is only written when the target filename
does not already exist. -/
def download_pdf (fetchPdf : String → Option String)
    (pd : Option PaperRecord) (fs : List (String × String)) : DlResult :=
  match pd with
  | none => ⟨fs, false, false⟩
  | some r =>
    match r.pdf_url with
    | none => ⟨fs, false, false⟩
    | some u =>
      if u = "" then ⟨fs, false, false⟩
      else
        let filename := pdfFilename r
        if fs.any (fun e => e.1 == filename) then ⟨fs, false, false⟩
        else
          match fetchPdf u with
          | some content => ⟨fs ++ [(filename, content)], true, true⟩
          | none => ⟨fs, true, false⟩

/-- The CSV cell a field is rendered to: an absent pdf_url becomes the
empty cell (pandas renders None/NaN as empty on to_csv). -/
def optCell : Option String → String
  | none => ""
  | some u => u

/-- The CSV row written for one record, in the column order of the store:
title, authors, abstract, pdf_url, year. -/
def toRow (r : PaperRecord) : List String :=
  [r.title, r.authors, r.abstract, optCell r.pdf_url, r.year]

/-- append_to_csv (scrapper.py lines 129-134): under the lock, append the
one-row frame for the record to the store. The store is modelled as the
list of its data rows. -/
def append_to_csv (csv : List (List String)) (r : PaperRecord) : List (List String) :=
  csv ++ [toRow r]

/-- N append_to_csv calls executed in a given completion order. The lock
in append_to_csv serializes concurrent callers, so a set of concurrent
append calls executes as the sequential composition of the individual
appends in their (arbitrary) completion order; that order is the list
argument here. -/
def appendAll (csv : List (List String)) (recs : List PaperRecord) : List (List String) :=
  recs.foldl append_to_csv csv

/-- The module-level mutable state of scrapper.py: the PDF directory, the
CSV store, and the global all_papers list. -/
structure GState where
  fs : List (String × String)
  csv : List (List String)
  all_papers : List PaperRecord
deriving DecidableEq

/-- process_paper (scrapper.py lines 136-142): scrape the page, and when
a record results, download its PDF and append the record to the CSV;
return the record (or None). -/
def process_paper (pageOf : String → Option Page) (fetchPdf : String → Option String)
    (url : String) (st : GState) : GState × Option PaperRecord :=
  match scrape_paper_data url (pageOf url) with
  | none => (st, none)
  | some r =>
    let d := download_pdf fetchPdf (some r) st.fs
    ({ st with fs := d.fs, csv := append_to_csv st.csv r }, some r)

/-- The worker-pool body of process_year (scrapper.py lines 154-161),
serialized in completion order: run process_paper per link, and append
each non-None result to the global all_papers list. -/
def processYearGo (pageOf : String → Option Page) (fetchPdf : String → Option String) :
    List String → GState → GState
  | [], st => st
  | url :: rest, st =>
    let pr := process_paper pageOf fetchPdf url st
    let st2 := match pr.2 with
      | some r => { pr.1 with all_papers := pr.1.all_papers ++ [r] }
      | none => pr.1
    processYearGo pageOf fetchPdf rest st2

/-- Link discovery as process_year sees it: an index page that failed to
fetch (none) yields no links (the except arm of get_paper_links), and a
fetched page yields get_paper_links over its hrefs. -/
def discoveredLinks (year : Nat) (indexOpt : Option (List String)) : List String :=
  match indexOpt with
  | none => []
  | some hrefs => get_paper_links year hrefs

/-- process_year (scrapper.py lines 144-161). The function body ends
without a return value on both paths (the bare `return` on the empty
case and falling off the end otherwise), so the Python return value is
always None; it is modelled as an Option (List PaperRecord) that is
none on every path. -/
def process_year (pageOf : String → Option Page) (fetchPdf : String → Option String)
    (year : Nat) (indexOpt : Option (List String)) (st : GState) :
    GState × Option (List PaperRecord) :=
  let paper_links := discoveredLinks year indexOpt
  if paper_links.isEmpty then (st, none)
  else (processYearGo pageOf fetchPdf paper_links st, none)

/-- The year loop of main (scrapper.py lines 164-166): process each year
of YEARS sequentially, threading the module state. -/
def crawlYearsGo (pageOf : String → Option Page) (fetchPdf : String → Option String)
    (indexOf : Nat → Option (List String)) (years : List Nat) (st : GState) : GState :=
  years.foldl (fun s y => (process_year pageOf fetchPdf y (indexOf y) s).1) st

/-- main (scrapper.py lines 163-175): run the year loop from the initial
module state (all_papers starts empty; the CSV store and PDF directory
may hold data from earlier runs), then, when all_papers is nonempty,
overwrite the CSV store with exactly the rows of all_papers. -/
def mainRun (pageOf : String → Option Page) (fetchPdf : String → Option String)
    (indexOf : Nat → Option (List String))
    (csv0 : List (List String)) (fs0 : List (String × String)) : GState :=
  let st := crawlYearsGo pageOf fetchPdf indexOf YEARS ⟨fs0, csv0, []⟩
  if st.all_papers.isEmpty then st
  else { st with csv := st.all_papers.map toRow }

end NeurIPS

namespace Annot

/-- The fixed label set (annotation.py, LABELS). -/
def LABELS : List String :=
  ["Deep Learning", "Computer Vision", "Reinforcement Learning", "NLP", "Optimization"]

/-- classify_paper (annotation.py lines 17-41). The external service call
(prompt construction, generate_content, response.text) is abstracted as
svc applied to the title and abstract; Except.error is any raised
exception, Except.ok its returned text. The source strips the response
and validates the stripped string against LABELS, falling back to
"Other"; a raised exception also yields "Other". -/
def classify_paper (svc : String → String → Except Unit String)
    (title abstract : String) : String :=
  match svc title abstract with
  | Except.error _ => "Other"
  | Except.ok t =>
    let label := NeurIPS.pyStrip t
    if LABELS.contains label then label else "Other"

/-- One row of the annotated store: the crawl columns plus the label
column. none for the label models a NaN cell (pd.isna). -/
structure AnnRow where
  title : String
  authors : String
  abstract : String
  pdf_url : String
  year : String
  label : Option String
deriving DecidableEq

/-- The not-yet-labeled test of annotation.py line 58:
row["label"] == "N/A" or pd.isna(row["label"]). -/
def isSentinel (l : Option String) : Bool :=
  l == some "N/A" || l == none

/-- The row loop of annotate_papers (annotation.py lines 57-67) on the
in-memory frame: rows whose label is the sentinel (or NaN) are
classified and updated, all other rows pass through unchanged. The
second component records the classification calls made, in order, as
(title, abstract) pairs. (The per-row full rewrite to the output file
persists the frame as it stands; the final persisted frame is the first
component.) -/
def annotate_papers (classify : String → String → String) :
    List AnnRow → List AnnRow × List (String × String)
  | [] => ([], [])
  | row :: rest =>
    if isSentinel row.label then
      let lab := classify row.title row.abstract
      let res := annotate_papers classify rest
      ({ row with label := some lab } :: res.1, (row.title, row.abstract) :: res.2)
    else
      let res := annotate_papers classify rest
      (row :: res.1, res.2)

end Annot

open NeurIPS Annot

/-! ## Helper lemmas -/

theorem appendAll_eq (csv : List (List String)) (recs : List PaperRecord) :
    appendAll csv recs = csv ++ recs.map toRow := by
  induction recs generalizing csv with
  | nil => simp [appendAll]
  | cons r rest ih =>
    have h : appendAll csv (r :: rest) = appendAll (append_to_csv csv r) rest := rfl
    rw [h, ih, append_to_csv]
    simp

theorem annotate_aux (classify : String → String → String) (rows : List AnnRow) :
    (annotate_papers classify rows).2
      = (rows.filter (fun r => isSentinel r.label)).map (fun r => (r.title, r.abstract)) ∧
    List.Forall₂ (fun r rr => isSentinel r.label = false → rr = r)
      rows (annotate_papers classify rows).1 := by
  induction rows with
  | nil => simp [annotate_papers]
  | cons row rest ih =>
    cases h : isSentinel row.label with
    | true =>
      refine ⟨?_, ?_⟩
      · simp [annotate_papers, h, List.filter_cons, ih.1]
      · simp only [annotate_papers, h, if_pos]
        exact List.Forall₂.cons (fun hf => by rw [h] at hf; cases hf) ih.2
    | false =>
      refine ⟨?_, ?_⟩
      · simp [annotate_papers, h, List.filter_cons, ih.1]
      · simp only [annotate_papers, h, if_neg, Bool.false_eq_true, not_false_iff]
        exact List.Forall₂.cons (fun _ => rfl) ih.2

/-! ## Claim theorems -/

/-- C1: The lock in append_to_csv serializes concurrent callers, so N
concurrent successful extractions appending in any completion order
(any permutation of the record set) run as the sequential composition
of complete single-row appends: the store gains exactly N rows, each
being the full row of its own record, with no truncation or mixing of
fields across rows. -/
theorem c1_append_serialized (recs order : List PaperRecord)
    (csv : List (List String)) (hperm : order.Perm recs) :
    appendAll csv order = csv ++ order.map toRow ∧
    (appendAll csv order).length = csv.length + recs.length := by
  refine ⟨appendAll_eq csv order, ?_⟩
  rw [appendAll_eq]
  simp [hperm.length_eq]

theorem c1_append_serialized_witness :
    appendAll [] [⟨"A", "a", "x", none, "2020"⟩, ⟨"B", "b", "y", some "u", "2021"⟩]
      = [] ++ [(⟨"A", "a", "x", none, "2020"⟩ : PaperRecord),
               ⟨"B", "b", "y", some "u", "2021"⟩].map toRow ∧
    (appendAll [] [⟨"A", "a", "x", none, "2020"⟩, ⟨"B", "b", "y", some "u", "2021"⟩]).length
      = List.length ([] : List (List String))
        + [(⟨"B", "b", "y", some "u", "2021"⟩ : PaperRecord),
           ⟨"A", "a", "x", none, "2020"⟩].length :=
  c1_append_serialized
    [⟨"B", "b", "y", some "u", "2021"⟩, ⟨"A", "a", "x", none, "2020"⟩]
    [⟨"A", "a", "x", none, "2020"⟩, ⟨"B", "b", "y", some "u", "2021"⟩]
    [] (by decide)

/-- C3: Re-running the enrichment pass over a store that mixes
already-labeled rows and sentinel rows invokes classification exactly
on the sentinel rows (the call log equals the sentinel rows, in order)
and passes every non-sentinel row through unchanged. -/
theorem c3_annotate_resumable (classify : String → String → String) (rows : List AnnRow)
    (hsent : ∃ r ∈ rows, isSentinel r.label = true)
    (hreal : ∃ r ∈ rows, isSentinel r.label = false) :
    (annotate_papers classify rows).2
      = (rows.filter (fun r => isSentinel r.label)).map (fun r => (r.title, r.abstract)) ∧
    List.Forall₂ (fun r rr => isSentinel r.label = false → rr = r)
      rows (annotate_papers classify rows).1 :=
  annotate_aux classify rows

theorem c3_annotate_resumable_witness :
    (annotate_papers (fun _ _ => "Deep Learning")
        [⟨"S", "au", "ab", "", "2020", some "N/A"⟩, ⟨"R", "au2", "ab2", "", "2021", some "NLP"⟩]).2
      = ([(⟨"S", "au", "ab", "", "2020", some "N/A"⟩ : AnnRow),
          ⟨"R", "au2", "ab2", "", "2021", some "NLP"⟩].filter
            (fun r => isSentinel r.label)).map (fun r => (r.title, r.abstract)) ∧
    List.Forall₂ (fun r rr => isSentinel r.label = false → rr = r)
      [⟨"S", "au", "ab", "", "2020", some "N/A"⟩, ⟨"R", "au2", "ab2", "", "2021", some "NLP"⟩]
      (annotate_papers (fun _ _ => "Deep Learning")
        [⟨"S", "au", "ab", "", "2020", some "N/A"⟩, ⟨"R", "au2", "ab2", "", "2021", some "NLP"⟩]).1 :=
  c3_annotate_resumable (fun _ _ => "Deep Learning")
    [⟨"S", "au", "ab", "", "2020", some "N/A"⟩, ⟨"R", "au2", "ab2", "", "2021", some "NLP"⟩]
    (by decide) (by decide)

/-- C9 counterexample: a service response that is outside the fixed label
set but trims into it is not mapped to the fallback: on the response
"NLP " (trailing blank) classify_paper returns "NLP", not "Other". -/
theorem c9_counterexample :
    classify_paper (fun _ _ => Except.ok "NLP ") "t" "a" = "NLP" ∧
    ¬ "NLP " ∈ LABELS ∧ "NLP" ≠ "Other" := by decide

/-- C9 (amended): when the classification call raises, classify_paper
returns "Other"; when it returns text, the text is stripped of
surrounding whitespace and the stripped string is validated: a stripped
response inside the fixed label set is returned as is (so a response
already equal to a label is returned unchanged), any other stripped
response maps to "Other". -/
theorem c9_classify_fallback (svc : String → String → Except Unit String)
    (title abstract : String) :
    (∀ e, svc title abstract = Except.error e → classify_paper svc title abstract = "Other") ∧
    (∀ s, svc title abstract = Except.ok s →
      classify_paper svc title abstract
        = if pyStrip s ∈ LABELS then pyStrip s else "Other") := by
  constructor
  · intro e he
    simp [classify_paper, he]
  · intro s hs
    simp only [classify_paper, hs]
    by_cases h : pyStrip s ∈ LABELS
    · simp [h, List.elem_iff]
    · simp only [if_neg h]
      rw [if_neg]
      simp [List.elem_iff, h]

theorem c9_classify_fallback_witness :
    classify_paper (fun _ _ => Except.ok "Robotics") "t" "a"
      = if pyStrip "Robotics" ∈ LABELS then pyStrip "Robotics" else "Other" :=
  (c9_classify_fallback (fun _ _ => Except.ok "Robotics") "t" "a").2 "Robotics" rfl

theorem findByLabels_eq_findSome (anchors : List Anchor) (labs : List String) :
    findByLabels anchors labs
      = labs.findSome? (fun lab => anchors.find? (fun a => a.atext == some lab)) := by
  induction labs with
  | nil => simp [findByLabels]
  | cons lab rest ih =>
    rw [findByLabels, List.findSome?_cons]
    cases h : anchors.find? (fun a => a.atext == some lab) with
    | none => simpa using ih
    | some a => simp

theorem findPdfAnchor_eq_twoStage (anchors : List Anchor) :
    findPdfAnchor anchors = twoStageSpec anchors := by
  rw [findPdfAnchor, twoStageSpec, findByLabels_eq_findSome, pdfFallback]

/-- C4: On a successfully fetched detail page (with a well-formed detail
URL, whose path carries the positional year segment) missing one or more
of title, authors, abstract, extract still returns a record: each
missing field carries the sentinel "N/A", each present field carries its
stripped extracted text, and the record as a whole is never None. -/
theorem c4_sentinel_completeness (url : String) (page : Page) (y : String)
    (hy : (urlSegments url).get? 5 = some y)
    (hmiss : page.h4 = none ∨ page.authorsP = none ∨ page.abstractP = none) :
    ∃ r, scrape_paper_data url (some page) = some r ∧
      (page.h4 = none → r.title = "N/A") ∧
      (∀ t, page.h4 = some t → r.title = pyStrip t) ∧
      (page.authorsP = none → r.authors = "N/A") ∧
      (∀ t, page.authorsP = some t → r.authors = pyStrip t) ∧
      (page.abstractP = none → r.abstract = "N/A") ∧
      (∀ t, page.abstractP = some t → r.abstract = pyStrip t) := by
  simp only [scrape_paper_data, hy]
  refine ⟨_, rfl, ?_, ?_, ?_, ?_, ?_, ?_⟩ <;> intros <;> simp_all

theorem c4_sentinel_completeness_witness :
    ∃ r, scrape_paper_data "https://papers.nips.cc/paper_files/paper/2020/hash"
        (some ⟨some " A Title ", none, some "Ab", []⟩) = some r ∧
      ((⟨some " A Title ", none, some "Ab", []⟩ : Page).h4 = none → r.title = "N/A") ∧
      (∀ t, (⟨some " A Title ", none, some "Ab", []⟩ : Page).h4 = some t → r.title = pyStrip t) ∧
      ((⟨some " A Title ", none, some "Ab", []⟩ : Page).authorsP = none → r.authors = "N/A") ∧
      (∀ t, (⟨some " A Title ", none, some "Ab", []⟩ : Page).authorsP = some t →
        r.authors = pyStrip t) ∧
      ((⟨some " A Title ", none, some "Ab", []⟩ : Page).abstractP = none → r.abstract = "N/A") ∧
      (∀ t, (⟨some " A Title ", none, some "Ab", []⟩ : Page).abstractP = some t →
        r.abstract = pyStrip t) :=
  c4_sentinel_completeness "https://papers.nips.cc/paper_files/paper/2020/hash"
    ⟨some " A Title ", none, some "Ab", []⟩ "2020" (by decide) (Or.inr (Or.inl rfl))

/-- C5: For a successfully fetched detail page, the pdf_url of the
returned record is exactly the result of the two-stage search (labels in
listed order first, then the "-Paper.pdf" suffix fallback), and whenever
a candidate anchor is found the pdf_url is that anchor's target prefixed
with the source site's base URL. -/
theorem c5_pdf_two_stage (url : String) (page : Page) (y : String) (r : PaperRecord)
    (hy : (urlSegments url).get? 5 = some y)
    (hr : scrape_paper_data url (some page) = some r) :
    r.pdf_url = (twoStageSpec page.anchors).map (fun a => BASE_URL ++ a.href) ∧
    (∀ u, r.pdf_url = some u → ∃ tail, u = BASE_URL ++ tail) := by
  simp only [scrape_paper_data, hy, Option.some.injEq] at hr
  subst hr
  constructor
  · simp [findPdfAnchor_eq_twoStage]
  · intro u hu
    cases hfa : findPdfAnchor page.anchors with
    | none => rw [hfa] at hu; cases hu
    | some a =>
      rw [hfa] at hu
      exact ⟨a.href, by simpa using hu.symm⟩

theorem c5_pdf_two_stage_witness :
    ((⟨"T", "au", "ab", some (BASE_URL ++ "/x-Paper.pdf"), "2020"⟩ : PaperRecord).pdf_url
      = (twoStageSpec [⟨"/x-Paper.pdf", some "PDF"⟩]).map (fun a => BASE_URL ++ a.href)) ∧
    (∀ u, (⟨"T", "au", "ab", some (BASE_URL ++ "/x-Paper.pdf"), "2020"⟩ : PaperRecord).pdf_url
      = some u → ∃ tail, u = BASE_URL ++ tail) := by
  have h := c5_pdf_two_stage "https://papers.nips.cc/paper_files/paper/2020/hash"
    ⟨some "T", some "au", some "ab", [⟨"/x-Paper.pdf", some "PDF"⟩]⟩ "2020"
    ⟨"T", "au", "ab", some (BASE_URL ++ "/x-Paper.pdf"), "2020"⟩ (by decide) (by decide)
  exact ⟨h.1, h.2⟩

/-- C6: When neither stage of the PDF-link search finds a candidate, the
record's pdf_url is the absent value none (structurally distinct from
the sentinel string "N/A"), and download_pdf on any record whose
pdf_url is absent leaves the PDF directory unchanged, attempts no
fetch, and writes no file (the function is total, so no error can
escape it). -/
theorem c6_absent_pdf_noop :
    (∀ (fetchPdf : String → Option String) (r : PaperRecord) (fs : List (String × String)),
      r.pdf_url = none → download_pdf fetchPdf (some r) fs = ⟨fs, false, false⟩) ∧
    (∀ (url : String) (page : Page) (y : String) (r : PaperRecord),
      (urlSegments url).get? 5 = some y →
      scrape_paper_data url (some page) = some r →
      findByLabels page.anchors pdfLabels = none →
      pdfFallback page.anchors = none →
      r.pdf_url = none ∧ r.pdf_url ≠ some "N/A") := by
  constructor
  · intro fetchPdf r fs h
    simp [download_pdf, h]
  · intro url page y r hy hr h1 h2
    simp only [scrape_paper_data, hy, Option.some.injEq] at hr
    subst hr
    simp [findPdfAnchor, h1, h2]

theorem c6_absent_pdf_noop_witness :
    download_pdf (fun _ => none) (some ⟨"T", "a", "b", none, "2020"⟩) []
      = ⟨[], false, false⟩ :=
  c6_absent_pdf_noop.1 (fun _ => none) ⟨"T", "a", "b", none, "2020"⟩ [] rfl

/-- C7: download_pdf is idempotent: for a record with a present, nonempty
pdf_url whose first invocation succeeds (so the deterministic target
file exists afterwards), the second invocation with the same record
attempts no fetch, writes nothing, and leaves the PDF directory exactly
as the first invocation left it. -/
theorem c7_download_idempotent (fetchPdf : String → Option String) (r : PaperRecord)
    (fs : List (String × String)) (u content : String)
    (hu : r.pdf_url = some u) (hne : u ≠ "") (hfetch : fetchPdf u = some content) :
    download_pdf fetchPdf (some r) (download_pdf fetchPdf (some r) fs).fs
      = ⟨(download_pdf fetchPdf (some r) fs).fs, false, false⟩ := by
  by_cases hex : fs.any (fun e => e.1 == pdfFilename r)
  · simp [download_pdf, hu, hne, hex]
  · simp [download_pdf, hu, hne, hex, hfetch, List.any_append]

theorem c7_download_idempotent_witness :
    download_pdf (fun _ => some "bytes")
        (some ⟨"T", "a", "b", some "https://papers.nips.cc/x-Paper.pdf", "2020"⟩)
        (download_pdf (fun _ => some "bytes")
          (some ⟨"T", "a", "b", some "https://papers.nips.cc/x-Paper.pdf", "2020"⟩) []).fs
      = ⟨(download_pdf (fun _ => some "bytes")
          (some ⟨"T", "a", "b", some "https://papers.nips.cc/x-Paper.pdf", "2020"⟩) []).fs,
         false, false⟩ :=
  c7_download_idempotent (fun _ => some "bytes")
    ⟨"T", "a", "b", some "https://papers.nips.cc/x-Paper.pdf", "2020"⟩ []
    "https://papers.nips.cc/x-Paper.pdf" "bytes" rfl (by decide) rfl

theorem firstSeenDedup_nil : firstSeenDedup [] = [] := by
  rw [firstSeenDedup]

theorem firstSeenDedup_cons (a : String) (l : List String) :
    firstSeenDedup (a :: l) = a :: firstSeenDedup (l.filter (fun b => b ≠ a)) := by
  rw [firstSeenDedup]

theorem filter_notmem_append (l acc : List String) (a : String) :
    l.filter (fun x => x ∉ acc ++ [a])
      = (l.filter (fun x => x ∉ acc)).filter (fun b => b ≠ a) := by
  induction l with
  | nil => rfl
  | cons x t ih =>
    by_cases h1 : x ∈ acc
    · simp only [List.filter_cons]
      rw [ih]
      simp [h1]
    · by_cases h2 : x = a
      · subst h2
        simp only [List.filter_cons]
        rw [ih]
        simp [h1]
      · simp only [List.filter_cons]
        rw [ih]
        simp [h1, h2]

theorem getPaperLinksGo_eq (year : Nat) (hrefs : List String) :
    ∀ acc, getPaperLinksGo year acc hrefs
      = acc ++ firstSeenDedup
          (((hrefs.filter (fun h => qualifiesHref year h)).map
            (fun h => BASE_URL ++ h)).filter (fun x => x ∉ acc)) := by
  induction hrefs with
  | nil =>
    intro acc
    simp [getPaperLinksGo, firstSeenDedup_nil]
  | cons h t ih =>
    intro acc
    by_cases hq : qualifiesHref year h
    · by_cases hmem : (BASE_URL ++ h) ∈ acc
      · rw [getPaperLinksGo, if_pos hq, if_pos hmem, ih]
        simp [hq, hmem]
      · rw [getPaperLinksGo, if_pos hq, if_neg hmem, ih, filter_notmem_append]
        simp [hq, hmem, List.filter_cons, firstSeenDedup_cons]
    · rw [getPaperLinksGo, if_neg hq, ih]
      simp [hq]

/-- C8: get_paper_links returns exactly the qualifying link targets
(href starts with the year-scoped listing prefix and has no "/file/"
segment), each turned into a full URL, deduplicated by exact string
equality with first-seen order preserved. -/
theorem c8_discover_filter_dedup (year : Nat) (hrefs : List String) :
    get_paper_links year hrefs
      = firstSeenDedup
          ((hrefs.filter (fun h => qualifiesHref year h)).map (fun h => BASE_URL ++ h)) := by
  have h := getPaperLinksGo_eq year hrefs []
  simpa using h

theorem processYearGo_all_papers (pageOf : String → Option Page)
    (fetchPdf : String → Option String) (links : List String) (st : GState) :
    (processYearGo pageOf fetchPdf links st).all_papers
      = st.all_papers ++ links.filterMap (fun url => scrape_paper_data url (pageOf url)) := by
  induction links generalizing st with
  | nil => simp [processYearGo]
  | cons url rest ih =>
    rw [processYearGo]
    cases h : scrape_paper_data url (pageOf url) with
    | none => simp [process_paper, h, ih, List.filterMap_cons]
    | some r => simp [process_paper, h, ih, List.filterMap_cons]

theorem processYearGo_csv (pageOf : String → Option Page)
    (fetchPdf : String → Option String) (links : List String) (st : GState) :
    (processYearGo pageOf fetchPdf links st).csv
      = st.csv ++ (links.filterMap (fun url => scrape_paper_data url (pageOf url))).map toRow := by
  induction links generalizing st with
  | nil => simp [processYearGo]
  | cons url rest ih =>
    rw [processYearGo]
    cases h : scrape_paper_data url (pageOf url) with
    | none => simp [process_paper, h, ih, List.filterMap_cons]
    | some r => simp [process_paper, h, ih, List.filterMap_cons, append_to_csv]

/-- C2 counterexample: when link discovery yields no links, process_year
does not return the empty list of records: its Python return value is
None (the bare return), modelled as the Option value none. -/
theorem c2_counterexample :
    (process_year (fun _ => none) (fun _ => none) 2020 (some []) ⟨[], [], []⟩).2 = none ∧
    (process_year (fun _ => none) (fun _ => none) 2020 (some []) ⟨[], [], []⟩).2
      ≠ some ([] : List PaperRecord) := by decide

/-- C2 (amended): process_year never returns a value: its Python return
value is None on every path (the successfully extracted records are
accumulated in the global all_papers list instead, possibly fewer than
the discovered links); when link discovery yields no links it returns
immediately with the module state unchanged. -/
theorem c2_process_year_none (pageOf : String → Option Page)
    (fetchPdf : String → Option String) (year : Nat)
    (indexOpt : Option (List String)) (st : GState) :
    (process_year pageOf fetchPdf year indexOpt st).2 = none ∧
    (discoveredLinks year indexOpt = [] →
      process_year pageOf fetchPdf year indexOpt st = (st, none)) ∧
    (process_year pageOf fetchPdf year indexOpt st).1.all_papers
      = st.all_papers ++ (discoveredLinks year indexOpt).filterMap
          (fun url => scrape_paper_data url (pageOf url)) := by
  refine ⟨?_, ?_, ?_⟩
  · rw [process_year]
    by_cases h : (discoveredLinks year indexOpt).isEmpty <;> simp [h]
  · intro h
    simp [process_year, h]
  · rw [process_year]
    by_cases h : (discoveredLinks year indexOpt).isEmpty
    · rw [List.isEmpty_iff] at h
      simp [h]
    · simp [h, processYearGo_all_papers]

theorem c2_process_year_none_witness :
    (process_year (fun _ => none) (fun _ => none) 2021 none ⟨[], [], []⟩).2 = none ∧
    (discoveredLinks 2021 none = [] →
      process_year (fun _ => none) (fun _ => none) 2021 none ⟨[], [], []⟩
        = (⟨[], [], []⟩, none)) ∧
    (process_year (fun _ => none) (fun _ => none) 2021 none ⟨[], [], []⟩).1.all_papers
      = (⟨[], [], []⟩ : GState).all_papers ++ (discoveredLinks 2021 none).filterMap
          (fun url => scrape_paper_data url none) :=
  c2_process_year_none (fun _ => none) (fun _ => none) 2021 none ⟨[], [], []⟩

theorem process_year_state_inv (pageOf : String → Option Page)
    (fetchPdf : String → Option String) (year : Nat)
    (indexOpt : Option (List String)) (st : GState) :
    ∃ new : List PaperRecord,
      (process_year pageOf fetchPdf year indexOpt st).1.csv = st.csv ++ new.map toRow ∧
      (process_year pageOf fetchPdf year indexOpt st).1.all_papers = st.all_papers ++ new := by
  rw [process_year]
  by_cases h : (discoveredLinks year indexOpt).isEmpty
  · exact ⟨[], by simp [h], by simp [h]⟩
  · refine ⟨(discoveredLinks year indexOpt).filterMap
      (fun url => scrape_paper_data url (pageOf url)), ?_, ?_⟩
    · simp [h, processYearGo_csv]
    · simp [h, processYearGo_all_papers]

theorem crawlYearsGo_state_inv (pageOf : String → Option Page)
    (fetchPdf : String → Option String) (indexOf : Nat → Option (List String))
    (years : List Nat) (st : GState) :
    ∃ new : List PaperRecord,
      (crawlYearsGo pageOf fetchPdf indexOf years st).csv = st.csv ++ new.map toRow ∧
      (crawlYearsGo pageOf fetchPdf indexOf years st).all_papers = st.all_papers ++ new := by
  induction years generalizing st with
  | nil => exact ⟨[], by simp [crawlYearsGo], by simp [crawlYearsGo]⟩
  | cons y ys ih =>
    obtain ⟨n1, h1, h2⟩ := process_year_state_inv pageOf fetchPdf y (indexOf y) st
    obtain ⟨n2, h3, h4⟩ := ih (process_year pageOf fetchPdf y (indexOf y) st).1
    refine ⟨n1 ++ n2, ?_, ?_⟩
    · have hc : crawlYearsGo pageOf fetchPdf indexOf (y :: ys) st
        = crawlYearsGo pageOf fetchPdf indexOf ys
            (process_year pageOf fetchPdf y (indexOf y) st).1 := rfl
      rw [hc, h3, h1]
      simp
    · have hc : crawlYearsGo pageOf fetchPdf indexOf (y :: ys) st
        = crawlYearsGo pageOf fetchPdf indexOf ys
            (process_year pageOf fetchPdf y (indexOf y) st).1 := rfl
      rw [hc, h4, h2]
      simp

/-- C10 (amended): when the CSV store is empty at the start of the run,
the final bulk overwrite of main leaves the store with exactly the rows
the incremental per-record appends alone produced, so the final write
is redundant and skipping it loses no data. (When the store holds rows
from before the run, the overwrite discards them: see the
counterexample.) -/
theorem c10_final_write_redundant (pageOf : String → Option Page)
    (fetchPdf : String → Option String) (indexOf : Nat → Option (List String))
    (fs0 : List (String × String)) :
    (mainRun pageOf fetchPdf indexOf [] fs0).csv
      = (crawlYearsGo pageOf fetchPdf indexOf YEARS ⟨fs0, [], []⟩).csv := by
  obtain ⟨new, h1, h2⟩ := crawlYearsGo_state_inv pageOf fetchPdf indexOf YEARS ⟨fs0, [], []⟩
  rw [mainRun]
  by_cases h : (crawlYearsGo pageOf fetchPdf indexOf YEARS ⟨fs0, [], []⟩).all_papers.isEmpty
  · simp [h]
  · simp only [h, Bool.false_eq_true, if_neg, not_false_iff]
    rw [h2, h1]
    simp

theorem c10_final_write_redundant_witness :
    (mainRun (fun _ => none) (fun _ => none) (fun _ => none) [] []).csv
      = (crawlYearsGo (fun _ => none) (fun _ => none) (fun _ => none) YEARS
          ⟨[], [], []⟩).csv :=
  c10_final_write_redundant (fun _ => none) (fun _ => none) (fun _ => none) []

/-- C10 counterexample: with one pre-existing row in the store and one
successful extraction, the incremental appends leave the store with the
old row followed by the new row, while the final bulk overwrite leaves
only the new row: the final write is not redundant and loses the
pre-existing row. -/
theorem c10_counterexample :
    (mainRun (fun _ => some ⟨some "T", none, none, []⟩) (fun _ => none)
        (fun y => if y == 2020 then some ["/paper_files/paper/2020/h"] else none)
        [["old", "x", "y", "", "2019"]] []).csv
      = [["T", "N/A", "N/A", "", "2020"]] ∧
    (crawlYearsGo (fun _ => some ⟨some "T", none, none, []⟩) (fun _ => none)
        (fun y => if y == 2020 then some ["/paper_files/paper/2020/h"] else none)
        YEARS ⟨[], [["old", "x", "y", "", "2019"]], []⟩).csv
      = [["old", "x", "y", "", "2019"], ["T", "N/A", "N/A", "", "2020"]] ∧
    ([["T", "N/A", "N/A", "", "2020"]] : List (List String))
      ≠ [["old", "x", "y", "", "2019"], ["T", "N/A", "N/A", "", "2020"]] := by decide
